import Mathlib

namespace FBox

/-- Model of the untyped runtime values the library can meet: the two
null-like markers, primitives, plain untagged objects, and the objects
produced by the two constructors of src/Either.ts (tagged with the field
isEither set to true and carrying one payload each). -/
inductive JSVal : Type where
  | vnull : JSVal
  | vundefined : JSVal
  | vnum : Int → JSVal
  | vstr : String → JSVal
  | vbool : Bool → JSVal
  | vobj : JSVal
  | vleft : JSVal → JSVal
  | vright : JSVal → JSVal
deriving DecidableEq

/-- Typed view of an Either instance, mirroring the source union type
Either L R = Left L | Right L R (Either.ts line 11); the payload is a
runtime value. -/
inductive EitherV : Type where
  | le : JSVal → EitherV
  | ri : JSVal → EitherV
deriving DecidableEq

/-- Erase the typed view back to the runtime value it denotes. -/
def EitherV.toVal : EitherV → JSVal
  | .le p => .vleft p
  | .ri p => .vright p

/-- Constructor left (Either.ts lines 197-210): wraps the value, no
validation, a null-like payload is accepted. -/
def left (v : JSVal) : EitherV := .le v

/-- Constructor right (Either.ts lines 217-247): wraps the value, no
validation. -/
def right (v : JSVal) : EitherV := .ri v

/-- Alias either = right (Either.ts line 253), re-exported as pack. -/
def eitherPack : JSVal → EitherV := right

/-- Predicate isNone (Either.ts lines 260-261): the value is null or
undefined. -/
def isNone : JSVal → Bool
  | .vnull => true
  | .vundefined => true
  | _ => false

/-- Predicate isEither (Either.ts lines 268-269): a truthy object whose
isEither field is the value true; in this model exactly the values built
by the two constructors carry that tag. -/
def isEither : JSVal → Bool
  | .vleft _ => true
  | .vright _ => true
  | _ => false

/-- Method match on the typed view (left receiver: Either.ts line 206,
right receiver: lines 231-232): invokes the handler of the variant on the
held payload and returns its result. -/
def EitherV.matchE {U : Type} (m : EitherV) (onLeft : JSVal → U) (onRight : JSVal → U) : U :=
  match m with
  | .le p => onLeft p
  | .ri p => onRight p

/-- Untyped dispatch of the match method on a runtime value; none models
the TypeError raised when the receiver has no match method. -/
def matchU {U : Type} (onLeft onRight : JSVal → U) : JSVal → Option U
  | .vleft p => some (onLeft p)
  | .vright p => some (onRight p)
  | _ => none

/-- Predicate isLeft (Either.ts lines 276-289): the tag check, and then
value.match with onLeft l => not (isNone l) and onRight _ => false. The
default of getD is unreachable: the conjunction already failed on every
value whose match dispatch is undefined. -/
def isLeft (v : JSVal) : Bool :=
  isEither v && (matchU (fun l => !isNone l) (fun _ => false) v).getD false

/-- Predicate isRight (Either.ts lines 296-309): the tag check, and then
value.match with onLeft _ => false and onRight r => not (isNone r). -/
def isRight (v : JSVal) : Bool :=
  isEither v && (matchU (fun _ => false) (fun r => !isNone r) v).getD false

/-- Method map (left receiver: Either.ts line 200, returning a fresh Left
with the same payload and ignoring the function; right receiver: line 218,
returning right (fn value)). -/
def EitherV.map (m : EitherV) (f : JSVal → JSVal) : EitherV :=
  match m with
  | .le p => .le p
  | .ri p => .ri (f p)

/-- Method flatMap (left receiver: Either.ts line 202; right receiver:
lines 226-227, returning fn value directly); the argument function returns
an Either, as the source signature requires. -/
def EitherV.flatMap (m : EitherV) (f : JSVal → EitherV) : EitherV :=
  match m with
  | .le p => .le p
  | .ri p => f p

/-- Method getValue (left receiver: Either.ts line 203, right receiver:
line 228): the raw payload of either variant. -/
def EitherV.getValue : EitherV → JSVal
  | .le p => p
  | .ri p => p

/-- Method orElse (left receiver: Either.ts line 204, returning the given
default Either; right receiver: line 229, returning a fresh Right holding
the same payload and ignoring the default). -/
def EitherV.orElse (m : EitherV) (d : EitherV) : EitherV :=
  match m with
  | .le _ => d
  | .ri p => .ri p

/-- Method getOrElse (left receiver: Either.ts line 205, returning the
bare default; right receiver: line 230, returning the held payload). -/
def EitherV.getOrElse (m : EitherV) (d : JSVal) : JSVal :=
  match m with
  | .le _ => d
  | .ri p => p

/-- Method apply of a Left receiver (Either.ts line 201): every argument
is ignored and a fresh Left holding the receiver payload is returned. -/
def leftApply (e : JSVal) (_boxValue : EitherV) : EitherV := .le e

/-- Method apply of a Right receiver holding the well-typed function f
(Either.ts lines 219-225): fn := this.getValue(); if isLeft boxValue then
boxValue else boxValue.map fn. -/
def rightApply (f : JSVal → JSVal) (boxValue : EitherV) : EitherV :=
  if isLeft boxValue.toVal then boxValue else boxValue.map f

/-- Symbolic alias of map (left receiver: Either.ts line 207 binds a
closure with the same body; right receiver: line 243 binds the same
function). -/
def EitherV.mapA (m : EitherV) (f : JSVal → JSVal) : EitherV :=
  match m with
  | .le p => .le p
  | .ri p => .ri (f p)

/-- Symbolic alias of flatMap (left receiver: Either.ts line 209; right
receiver: line 245). -/
def EitherV.bindA (m : EitherV) (f : JSVal → EitherV) : EitherV :=
  match m with
  | .le p => .le p
  | .ri p => f p

/-- Symbolic alias of apply for a Left receiver (Either.ts line 208). -/
def leftApplyA (e : JSVal) (_boxValue : EitherV) : EitherV := .le e

/-- Symbolic alias of apply for a Right receiver (Either.ts line 244
binds the same function as apply). -/
def rightApplyA (f : JSVal → JSVal) (boxValue : EitherV) : EitherV :=
  if isLeft boxValue.toVal then boxValue else boxValue.map f

/-- Untyped dispatch of the map method; none models the TypeError raised
when the receiver is not an Either instance. -/
def mapU (f : JSVal → JSVal) : JSVal → Option JSVal
  | .vleft p => some (.vleft p)
  | .vright p => some (.vright (f p))
  | _ => none

/-- Untyped dispatch of the flatMap method: on a Right receiver the raw
result of the function is returned, unchecked, as in the source. -/
def flatMapU (f : JSVal → JSVal) : JSVal → Option JSVal
  | .vleft p => some (.vleft p)
  | .vright p => some (f p)
  | _ => none

/-- Untyped dispatch of the getValue method. -/
def getValueU : JSVal → Option JSVal
  | .vleft p => some p
  | .vright p => some p
  | _ => none

/-- Untyped dispatch of the orElse method. -/
def orElseU (d : JSVal) : JSVal → Option JSVal
  | .vleft _ => some d
  | .vright p => some (.vright p)
  | _ => none

/-- Untyped dispatch of the getOrElse method. -/
def getOrElseU (d : JSVal) : JSVal → Option JSVal
  | .vleft _ => some d
  | .vright p => some p
  | _ => none

/-- Untyped dispatch of the apply method for a receiver holding the
well-typed function f: a Left receiver ignores the argument, a Right
receiver runs the guarded body of Either.ts lines 223-224, where the
fallback calls map on the argument box. -/
def applyU (f : JSVal → JSVal) (recv box : JSVal) : Option JSVal :=
  match recv with
  | .vleft p => some (.vleft p)
  | .vright _ => if isLeft box then some box else mapU f box
  | _ => none

/-- C1: isLeft holds on exactly the tagged Either values whose Left branch
fires under match with a payload that is not null-like, and isRight holds
on exactly those whose Right branch fires with a payload that is not
null-like; in particular isLeft (left "e") is true, isRight (left "e") is
false, and isLeft (left null) is false. -/
theorem isLeft_isRight_classification :
    (∀ v : JSVal, isLeft v = true ↔ ∃ p, v = .vleft p ∧ isNone p = false) ∧
    (∀ v : JSVal, isRight v = true ↔ ∃ p, v = .vright p ∧ isNone p = false) ∧
    isLeft (left (.vstr "e")).toVal = true ∧
    isRight (left (.vstr "e")).toVal = false ∧
    isLeft (left .vnull).toVal = false := by
  refine ⟨?_, ?_, by decide, by decide, by decide⟩ <;>
    intro v <;> cases v <;>
    simp [isLeft, isRight, isEither, matchU, isNone]

/-- C2: apply's receiver-precedence rule: a Left receiver returns a Left
holding its own payload and never inspects the argument box, a Right
receiver turns a Left argument box into a Left with that payload, and two
Rights apply the held function to the argument payload; the two concrete
examples of the spec follow. -/
theorem apply_receiver_precedence :
    (∀ e b, leftApply e b = .le e) ∧
    (∀ f e, rightApply f (.le e) = .le e) ∧
    (∀ f a, rightApply f (.ri a) = .ri (f a)) ∧
    leftApply (.vstr "fn-error") (.le (.vstr "arg-error")) = .le (.vstr "fn-error") ∧
    (∀ f, rightApply f (.le (.vstr "arg-error")) = .le (.vstr "arg-error")) := by
  refine ⟨fun e b => rfl, fun f e => ?_, fun f a => rfl, rfl, fun f => ?_⟩
  · unfold rightApply
    split <;> rfl
  · rfl

/-- C3: Left absorption: on a Left receiver, map, flatMap and apply each
return a Left holding the same payload for every supplied function and
argument box, so the result never depends on the function, which is never
invoked. -/
theorem left_absorption :
    ∀ e : JSVal,
      (∀ f, (EitherV.le e).map f = .le e) ∧
      (∀ g, (EitherV.le e).flatMap g = .le e) ∧
      (∀ b b', leftApply e b = .le e ∧ leftApply e b = leftApply e b') :=
  fun e => ⟨fun _ => rfl, fun _ => rfl, fun _ _ => ⟨rfl, rfl⟩⟩

/-- C4: flatMap satisfies the monad laws: left identity, right identity
with respect to the right constructor, and associativity. -/
theorem flatMap_monad_laws :
    (∀ (x : JSVal) (f : JSVal → EitherV), (right x).flatMap f = f x) ∧
    (∀ m : EitherV, m.flatMap right = m) ∧
    (∀ (m : EitherV) (f g : JSVal → EitherV),
      (m.flatMap f).flatMap g = m.flatMap (fun x => (f x).flatMap g)) := by
  refine ⟨fun x f => rfl, fun m => ?_, fun m f g => ?_⟩ <;> cases m <;> rfl

/-- C5: map satisfies the functor laws: identity and composition, and on a
Right it applies the function to the held payload. -/
theorem map_functor_laws :
    (∀ m : EitherV, m.map (fun x => x) = m) ∧
    (∀ (m : EitherV) (f g : JSVal → JSVal),
      (m.map f).map g = m.map (fun x => g (f x))) ∧
    (∀ (v : JSVal) (f : JSVal → JSVal), (right v).map f = .ri (f v)) := by
  refine ⟨fun m => ?_, fun m f g => ?_, fun v f => rfl⟩ <;> cases m <;> rfl

/-- C6: orElse on a Right returns a Right with the same payload, ignoring
the default, and on a Left returns the default Either itself; getOrElse on
a Right returns the held payload, ignoring the default, and on a Left
returns the bare default unwrapped. -/
theorem orElse_getOrElse_spec :
    (∀ (v : JSVal) (d : EitherV), (EitherV.ri v).orElse d = .ri v) ∧
    (∀ (e : JSVal) (d : EitherV), (EitherV.le e).orElse d = d) ∧
    (∀ v x : JSVal, (EitherV.ri v).getOrElse x = v) ∧
    (∀ e x : JSVal, (EitherV.le e).getOrElse x = x) :=
  ⟨fun _ _ => rfl, fun _ _ => rfl, fun _ _ => rfl, fun _ _ => rfl⟩

/-- C7: isEither holds on exactly the values built by the two
constructors, the objects tagged with the field isEither set to true, and
is false for everything else, null and undefined included; the two
concrete examples of the spec follow. -/
theorem isEither_characterization :
    (∀ v : JSVal, isEither v = true ↔ (∃ p, v = .vleft p) ∨ (∃ p, v = .vright p)) ∧
    isEither .vnull = false ∧
    isEither .vundefined = false ∧
    isEither (.vnum 42) = false ∧
    isEither (right (.vnum 1)).toVal = true := by
  refine ⟨?_, rfl, rfl, rfl, rfl⟩
  intro v
  cases v <;> simp [isEither]

/-- C8: match on a Left invokes the left handler on the held payload and
returns its result, match on a Right invokes the right handler likewise,
and in each case the result does not depend on the other handler, which
is never invoked. -/
theorem match_dispatch :
    ∀ (U : Type) (p : JSVal) (onL onR onL' onR' : JSVal → U),
      (EitherV.le p).matchE onL onR = onL p ∧
      (EitherV.ri p).matchE onL onR = onR p ∧
      (EitherV.le p).matchE onL onR = (EitherV.le p).matchE onL onR' ∧
      (EitherV.ri p).matchE onL onR = (EitherV.ri p).matchE onL' onR :=
  fun _ _ _ _ _ _ => ⟨rfl, rfl, rfl, rfl⟩

/-- C9: every operation is total on Either receivers: on any value
carrying the Either tag, the untyped dispatch of map, flatMap, match,
getValue, orElse, getOrElse and apply returns a result rather than the
TypeError marker; the constructors always produce tagged Eithers, and
the symbolic aliases agree with map, flatMap and the two apply bodies
everywhere. -/
theorem operations_total_on_eithers :
    ∀ (v b : JSVal) (f : JSVal → JSVal) (g : JSVal → EitherV)
      (onL onR : JSVal → JSVal) (d x : JSVal),
      isEither v = true →
      (mapU f v).isSome = true ∧
      (flatMapU f v).isSome = true ∧
      (matchU onL onR v).isSome = true ∧
      (getValueU v).isSome = true ∧
      (orElseU d v).isSome = true ∧
      (getOrElseU x v).isSome = true ∧
      (isEither b = true → (applyU f v b).isSome = true) ∧
      isEither (left x).toVal = true ∧
      isEither (right x).toVal = true ∧
      (∀ m : EitherV, m.mapA f = m.map f) ∧
      (∀ m : EitherV, m.bindA g = m.flatMap g) ∧
      (∀ m : EitherV, leftApplyA x m = leftApply x m) ∧
      (∀ m : EitherV, rightApplyA f m = rightApply f m) := by
  intro v b f g onL onR d x hv
  cases v with
  | vleft p =>
      refine ⟨rfl, rfl, rfl, rfl, rfl, rfl, fun _ => rfl, rfl, rfl,
        fun m => ?_, fun m => ?_, fun m => rfl, fun m => rfl⟩ <;> cases m <;> rfl
  | vright p =>
      refine ⟨rfl, rfl, rfl, rfl, rfl, rfl, fun hb => ?_, rfl, rfl,
        fun m => ?_, fun m => ?_, fun m => rfl, fun m => rfl⟩
      · cases b <;> simp_all [applyU, mapU, isEither] <;> (split <;> simp [mapU])
      · cases m <;> rfl
      · cases m <;> rfl
  | vnull => exact absurd hv (by simp [isEither])
  | vundefined => exact absurd hv (by simp [isEither])
  | vnum n => exact absurd hv (by simp [isEither])
  | vstr s => exact absurd hv (by simp [isEither])
  | vbool c => exact absurd hv (by simp [isEither])
  | vobj => exact absurd hv (by simp [isEither])

/-- C9 witness: the totality theorem applied to the concrete receiver
left null and argument box right 1, with the identity function and
concrete handlers and defaults. -/
theorem operations_total_on_eithers_witness :
    isEither (JSVal.vleft .vnull) = true ∧
    ((mapU (fun w => w) (JSVal.vleft .vnull)).isSome = true ∧
     (flatMapU (fun w => w) (JSVal.vleft .vnull)).isSome = true ∧
     (matchU (fun w => w) (fun w => w) (JSVal.vleft .vnull)).isSome = true ∧
     (getValueU (JSVal.vleft .vnull)).isSome = true ∧
     (orElseU (.vnum 0) (JSVal.vleft .vnull)).isSome = true ∧
     (getOrElseU (.vnum 0) (JSVal.vleft .vnull)).isSome = true ∧
     (isEither (JSVal.vright (.vnum 1)) = true →
       (applyU (fun w => w) (JSVal.vleft .vnull) (JSVal.vright (.vnum 1))).isSome = true) ∧
     isEither (left (.vnum 0)).toVal = true ∧
     isEither (right (.vnum 0)).toVal = true ∧
     (∀ m : EitherV, m.mapA (fun w => w) = m.map (fun w => w)) ∧
     (∀ m : EitherV, m.bindA (fun w => .ri w) = m.flatMap (fun w => .ri w)) ∧
     (∀ m : EitherV, leftApplyA (.vnum 0) m = leftApply (.vnum 0) m) ∧
     (∀ m : EitherV, rightApplyA (fun w => w) m = rightApply (fun w => w) m)) :=
  ⟨rfl, operations_total_on_eithers (JSVal.vleft .vnull) (JSVal.vright (.vnum 1))
    (fun w => w) (fun w => .ri w) (fun w => w) (fun w => w) (.vnum 0) (.vnum 0) rfl⟩

/-- C10: when a Right receiver's apply gets a Left argument box whose
payload is null-like, the isLeft guard reports false on that box, yet the
result is a Left holding the same payload for every held function, because
the fallback calls the map of the Left argument box, which ignores the
function. -/
theorem apply_nulllike_left_argument (e : JSVal) (f : JSVal → JSVal)
    (h : isNone e = true) :
    isLeft (EitherV.le e).toVal = false ∧
    rightApply f (.le e) = .le e ∧
    rightApply f (.le e) = (EitherV.le e).map f := by
  refine ⟨?_, ?_, ?_⟩
  · simp [isLeft, isEither, matchU, EitherV.toVal, h]
  · unfold rightApply
    split <;> rfl
  · unfold rightApply
    split <;> rfl

/-- C10 witness: the theorem applied at the concrete null payload and the
identity function. -/
theorem apply_nulllike_left_argument_witness :
    isNone .vnull = true ∧
    (isLeft (EitherV.le .vnull).toVal = false ∧
     rightApply (fun w => w) (.le .vnull) = .le .vnull ∧
     rightApply (fun w => w) (.le .vnull) = (EitherV.le .vnull).map (fun w => w)) :=
  ⟨rfl, apply_nulllike_left_argument .vnull (fun w => w) rfl⟩

end FBox
